import Mathlib

/-!
Verification of the replay playback control surface
(`src/static/app/components/replays/replayController.tsx`).

Times (milliseconds), timestamps and measured widths (pixels) of the source
are modelled as integers (`Int`); playback speeds, which include fractional
values such as 0.1, as rationals (`ℚ`). Timestamps that may be absent are
`Option Int`; JavaScript truthiness of such a value (`undefined` and `0` are
falsy) is made explicit at each guard.
-/

/-- `const SECOND = 1000` (line 27 of the source). -/
def SECOND : Int := 1000

/-- Modelled from the spec: the `BreadcrumbType` enumeration imported from
`sentry/types/breadcrumbs`, which is not under `src/`. The spec (§3) names the
five categories of interest — error, session-init (`init`), navigation,
ui-interaction (`ui`), user-action (`user`) — and implies further categories
exist that are not of interest; a few such members of the enumeration
(`debug`, `http`, `info`, `warning`) are included so that the allowlist filter
is not vacuous. -/
inductive BreadcrumbType where
  | error
  | init
  | navigation
  | ui
  | user
  | debug
  | http
  | info
  | warning
deriving DecidableEq, Repr

/-- The fixed allowlist of event kinds used by the next-breadcrumb seek
(lines 29–35 of the source). -/
def USER_ACTIONS : List BreadcrumbType :=
  [BreadcrumbType.error, BreadcrumbType.init, BreadcrumbType.navigation,
   BreadcrumbType.ui, BreadcrumbType.user]

/-- A (transformed) breadcrumb: an event kind plus an absolute timestamp in
milliseconds. The timestamp field may be absent (`none`) in malformed input. -/
structure Crumb where
  type : BreadcrumbType
  timestamp : Option Int
deriving DecidableEq, Repr

/-- The replay handle obtained from the context: the session's absolute start
timestamp in seconds (`replay.getEvent().startTimestamp`, possibly absent) and
the raw breadcrumbs (`replay.getRawCrumbs()`). -/
structure Replay where
  startTimestamp : Option Int
  rawCrumbs : List Crumb
deriving DecidableEq, Repr

/-- Modelled from the spec: the Playback Clock state (§3). The Clock itself
lives in `useReplayContext`, outside `src/`. -/
structure PlaybackState where
  currentTimeMs : Int
  durationMs : Int
  isPlaying : Bool
  isFinished : Bool
  speed : ℚ
  isSkippingInactive : Bool
deriving DecidableEq, Repr

/-- `clamp t lo hi`: `t` forced into the interval `[lo, hi]`. -/
def clamp (t lo hi : Int) : Int :=
  let floored := if t < lo then lo else t
  if hi < floored then hi else floored

/-- Modelled from the spec: `setCurrentTime(t)` clamps `t` into
`[0, durationMs]` and recomputes `isFinished` by equality with the duration
(§4.2). -/
def PlaybackState.setCurrentTime (st : PlaybackState) (t : Int) : PlaybackState :=
  let c := clamp t 0 st.durationMs
  { st with currentTimeMs := c, isFinished := c == st.durationMs }

/-- Modelled from the spec: `restart()` (§4.2). -/
def PlaybackState.restart (st : PlaybackState) : PlaybackState :=
  { st with currentTimeMs := 0, isFinished := false, isPlaying := true }

/-- Modelled from the spec: `togglePlayPause(requestedPlaying)` sets
`isPlaying` to the requested value, clamped by the finished-state rule (§4.2);
the finished case is reinterpreted by the caller, not here. -/
def PlaybackState.togglePlayPause (st : PlaybackState) (req : Bool) : PlaybackState :=
  { st with isPlaying := req && !st.isFinished }

/-- Modelled from the spec: `setSpeed(s)` changes only the speed (§4.2). -/
def PlaybackState.setSpeed (st : PlaybackState) (s : ℚ) : PlaybackState :=
  { st with speed := s }

/-- Modelled from the spec: `toggleSkipInactive(v)` (§4.2). -/
def PlaybackState.toggleSkipInactive (st : PlaybackState) (v : Bool) : PlaybackState :=
  { st with isSkippingInactive := v }

/-- A command the control surface can dispatch into the Playback Clock. -/
inductive Command where
  | restart
  | togglePlayPause (requested : Bool)
  | setCurrentTime (t : Int)
  | setSpeed (s : ℚ)
  | toggleSkipInactive (v : Bool)
deriving DecidableEq, Repr

/-- Executing one dispatched command against the Clock. -/
def applyCommand (st : PlaybackState) : Command → PlaybackState
  | Command.restart => st.restart
  | Command.togglePlayPause r => st.togglePlayPause r
  | Command.setCurrentTime t => st.setCurrentTime t
  | Command.setSpeed s => st.setSpeed s
  | Command.toggleSkipInactive v => st.toggleSkipInactive v

/-- A handler dispatches either one command or nothing (a silent no-op). -/
def applyDispatch (st : PlaybackState) : Option Command → PlaybackState
  | none => st
  | some c => applyCommand st c

/-- Timestamp of a crumb, defaulting to 0, used only as a sort key. -/
def Crumb.tsKey (c : Crumb) : Int := c.timestamp.getD 0

/-- Stable insertion into a timestamp-sorted list: `c` goes before the first
element with a strictly larger timestamp, hence before equal timestamps that
came later in the input. -/
def insertByTs (c : Crumb) : List Crumb → List Crumb
  | [] => [c]
  | d :: ds => if d.tsKey < c.tsKey then d :: insertByTs c ds else c :: d :: ds

/-- Stable sort of crumbs ascending by timestamp. -/
def sortByTs : List Crumb → List Crumb
  | [] => []
  | c :: cs => insertByTs c (sortByTs cs)

/-- Modelled from the spec: `transformCrumbs` (imported from
`sentry/components/events/interfaces/breadcrumbs/utils`, not under `src/`)
realises §4.1 `buildIndex`: events lacking a usable timestamp are dropped and
the rest are sorted ascending by timestamp, stably. -/
def transformCrumbs (raw : List Crumb) : List Crumb :=
  sortByTs (raw.filter fun c => c.timestamp.isSome)

/-- The filter applied before the seek query (lines 93–95 of the source):
keep exactly the crumbs whose type is in the `USER_ACTIONS` allowlist. -/
def crumbsOfInterest (crumbs : List Crumb) : List Crumb :=
  crumbs.filter fun c => USER_ACTIONS.contains c.type

/-- Modelled from the spec: `getNextBreadcrumb` (imported from
`sentry/utils/replays/getBreadcrumb`, not under `src/`) is §4.1
`nextEventOfInterest` on an already-filtered, sorted sequence: the earliest
crumb whose timestamp is at or after the target; `none` if no such crumb. -/
def getNextBreadcrumb (crumbs : List Crumb) (targetTimestampMs : Int) : Option Crumb :=
  crumbs.find? fun c =>
    match c.timestamp with
    | some ts => decide (targetTimestampMs ≤ ts)
    | none => false

/-- Modelled from the spec: `relativeTimeInMs` (imported from
`sentry/components/replays/utils`, not under `src/`) converts an absolute
event timestamp (ms) back to an offset relative to the session start
(given in seconds): `eventTimestampMs - sessionStartTimestampMs` (§4.2). -/
def relativeTimeInMs (timestampMs : Int) (startTimestampSec : Int) : Int :=
  timestampMs - startTimestampSec * 1000

/-- The final guard and dispatch of the next-breadcrumb handler (lines 99–101):
`if (startTimestampSec !== undefined && next?.timestamp) setCurrentTime(...)`.
`next?.timestamp` is truthy only when the crumb exists, its timestamp is
present, and the timestamp is nonzero. -/
def nextBreadcrumbDispatch (startTimestampSec : Option Int) (next : Option Crumb) :
    Option Command :=
  match startTimestampSec, next with
  | some s, some n =>
    match n.timestamp with
    | some ts =>
      if ts = 0 then none
      else some (Command.setCurrentTime (relativeTimeInMs ts s))
    | none => none
  | _, _ => none

/-- The next-breadcrumb button's click handler (lines 86–102 of the source):
read the session start (seconds), bail out when it is falsy (`undefined` or
`0`), transform and filter the raw crumbs, query for the next breadcrumb at
or after `startTimestampSec * 1000 + currentTime`, and dispatch under the
truthiness guard. -/
def nextBreadcrumbOnClick (replay : Option Replay) (currentTime : Int) :
    Option Command :=
  match replay.bind Replay.startTimestamp with
  | none => none
  | some s =>
    if s = 0 then none
    else
      let transformedCrumbs := transformCrumbs ((replay.map Replay.rawCrumbs).getD [])
      let next := getNextBreadcrumb (crumbsOfInterest transformedCrumbs)
        (s * 1000 + currentTime)
      nextBreadcrumbDispatch (some s) next

/-- The rewind-10s button's click handler (line 60 of the source):
`setCurrentTime(currentTime - 10 * SECOND)` — not a Clock primitive. -/
def rewind10OnClick (currentTime : Int) : Command :=
  Command.setCurrentTime (currentTime - 10 * SECOND)

/-- A rendered button of the play/pause bar: its title and the command its
click dispatches (`none` when the handler decides to do nothing). -/
structure RenderedButton where
  title : String
  onClick : Option Command
deriving DecidableEq, Repr

/-- The rewind-10s button (lines 55–63 of the source). -/
def rewindButton (currentTime : Int) : RenderedButton :=
  { title := "Rewind 10s", onClick := some (rewind10OnClick currentTime) }

/-- The primary playback control (lines 64–80 of the source): the restart
button when finished, otherwise the play/pause toggle. -/
def playPauseSlot (isFinished isPlaying : Bool) : RenderedButton :=
  if isFinished then
    { title := "Restart Replay", onClick := some Command.restart }
  else
    { title := if isPlaying then "Pause" else "Play",
      onClick := some (Command.togglePlayPause (!isPlaying)) }

/-- The next-breadcrumb button (lines 81–105 of the source). -/
def nextBreadcrumbButton (replay : Option Replay) (currentTime : Int) :
    RenderedButton :=
  { title := "Next breadcrumb", onClick := nextBreadcrumbOnClick replay currentTime }

/-- `ReplayPlayPauseBar` (lines 42–108 of the source): the rewind-10s and
next-breadcrumb buttons are rendered only when not compact; the primary
play/pause/restart control is always rendered. -/
def replayPlayPauseBar (isCompact : Bool) (st : PlaybackState)
    (replay : Option Replay) : List RenderedButton :=
  (if isCompact then [] else [rewindButton st.currentTimeMs])
    ++ [playPauseSlot st.isFinished st.isPlaying]
    ++ (if isCompact then [] else [nextBreadcrumbButton replay st.currentTimeMs])

/-- One option of the speed selector (lines 135–139 of the source); the label
string is presentation-only and omitted. -/
structure SelectOption where
  value : ℚ
  disabled : Bool
deriving DecidableEq, Repr

/-- The options handed to `CompactSelect` (lines 135–139): one per offered
speed, disabled exactly when it equals the current speed. -/
def speedSelectOptions (speedOptions : List ℚ) (speed : ℚ) : List SelectOption :=
  speedOptions.map fun speedOption =>
    { value := speedOption, disabled := speedOption == speed }

/-- The speed selector's change handler (lines 140–142): dispatch
`setSpeed(opt.value)`. -/
def speedSelectOnChange (opt : SelectOption) : Command :=
  Command.setSpeed opt.value

/-- The speed selector's trigger text (line 132): empty when compact,
"Speed" otherwise. -/
def speedSelectTriggerText (isCompact : Bool) : String :=
  if isCompact then "" else "Speed"

/-- The default speed options (line 149 of the source). -/
def defaultSpeedOptions : List ℚ := [1/10, 1/4, 1/2, 1, 2, 4]

/-- The measured width (line 157 of the source):
`barRef.current?.getBoundingClientRect() ?? {width: 500}` — the rect's width
when the container can be measured, else 500. -/
def measuredWidth (rect : Option Int) : Int :=
  rect.getD 500

/-- `updateCompactLevel` (lines 156–163 of the source) as the level it stores:
1 when the measured width is below 400, else 0. -/
def updateCompactLevel (rect : Option Int) : Nat :=
  let width := measuredWidth rect
  if width < 400 then 1 else 0

/-- How `ReplayControls` derives the `isCompact` prop from the stored level
(lines 173 and 186 of the source): `compactLevel > 0`. -/
def replayControlsIsCompact (compactLevel : Nat) : Bool :=
  decide (compactLevel > 0)

/-- The `setCompactLevel` calls performed by one invocation of
`updateCompactLevel` at a given measured rect: exactly one, storing the
derived level. -/
def updateCompactLevelCalls (rect : Option Int) : List Nat :=
  [updateCompactLevel rect]

/-- The resize handler registered with `useResizeObserver` (lines 165–168 of
the source) is `updateCompactLevel` itself. -/
def resizeObserverOnResize (rect : Option Int) : List Nat :=
  updateCompactLevelCalls rect

/-- The callback passed to `useLayoutEffect` at line 169 of the source,
`() => updateCompactLevel`: executing its body performs no `setCompactLevel`
calls (first component, the empty list) and returns `updateCompactLevel`
itself, which React treats as the effect's cleanup (second component). -/
def layoutEffectBody : List Nat × (Option Int → List Nat) :=
  ([], updateCompactLevelCalls)

/-- Replaying a list of `setCompactLevel` calls over a stored level: each call
overwrites the level. -/
def applySetLevelCalls (level : Nat) (calls : List Nat) : Nat :=
  calls.foldl (fun _ n => n) level

/-- The `compactLevel` visible at first paint: the `useState` initial value 0
(line 152 of the source) after the calls performed by the mount run of the
layout effect's body. -/
def compactLevelAtFirstPaint : Nat :=
  applySetLevelCalls 0 layoutEffectBody.1

theorem mem_USER_ACTIONS_iff (t : BreadcrumbType) :
    USER_ACTIONS.contains t = true ↔
      (t = BreadcrumbType.error ∨ t = BreadcrumbType.init ∨
       t = BreadcrumbType.navigation ∨ t = BreadcrumbType.ui ∨
       t = BreadcrumbType.user) := by
  cases t <;> decide

/-- The crumbs of Scenario B: events of interest at absolute times 1050,
1210 and 1400 milliseconds. -/
def scenarioBCrumbs : List Crumb :=
  [⟨BreadcrumbType.user, some 1050⟩, ⟨BreadcrumbType.user, some 1210⟩,
   ⟨BreadcrumbType.user, some 1400⟩]

/-- C1: With a known (truthy) session start, the next-breadcrumb command
targets `startTimestampSec * 1000 + currentTime`, queries the allowlisted
crumbs for the earliest event at or after the target, and on success
dispatches `setCurrentTime` with the event timestamp converted back to an
offset from session start; with currentTime 120, session start at 1000 ms
(1 s) and events of interest at 1050, 1210, 1400, the playback cursor is set
to 210. -/
theorem nextBreadcrumb_seeks_to_next_event :
    (∀ (s currentTime : Int) (crumbs : List Crumb) (n : Crumb) (ts : Int),
        s ≠ 0 →
        getNextBreadcrumb (crumbsOfInterest (transformCrumbs crumbs))
            (s * 1000 + currentTime) = some n →
        n.timestamp = some ts → ts ≠ 0 →
        nextBreadcrumbOnClick (some ⟨some s, crumbs⟩) currentTime
            = some (Command.setCurrentTime (relativeTimeInMs ts s)) ∧
          relativeTimeInMs ts s = ts - s * 1000) ∧
    nextBreadcrumbOnClick (some ⟨some 1, scenarioBCrumbs⟩) 120
        = some (Command.setCurrentTime 210) ∧
    (applyDispatch ⟨120, 5000, false, false, 1, false⟩
        (nextBreadcrumbOnClick (some ⟨some 1, scenarioBCrumbs⟩) 120)).currentTimeMs
      = 210 := by
  refine ⟨?_, by decide, by decide⟩
  intro s currentTime crumbs n ts hs hq hts hts0
  refine ⟨?_, rfl⟩
  have hrw : nextBreadcrumbOnClick (some ⟨some s, crumbs⟩) currentTime
      = if s = 0 then none
        else nextBreadcrumbDispatch (some s)
          (getNextBreadcrumb (crumbsOfInterest (transformCrumbs crumbs))
            (s * 1000 + currentTime)) := rfl
  rw [hrw, if_neg hs, hq]
  simp [nextBreadcrumbDispatch, hts, hts0]

/-- C1 witness: the general part of the theorem at Scenario B's inputs. -/
theorem nextBreadcrumb_seeks_to_next_event_witness :
    nextBreadcrumbOnClick (some ⟨some 1, scenarioBCrumbs⟩) 120
        = some (Command.setCurrentTime (relativeTimeInMs 1210 1)) ∧
      relativeTimeInMs 1210 1 = 1210 - 1 * 1000 :=
  nextBreadcrumb_seeks_to_next_event.1 1 120 scenarioBCrumbs
    ⟨BreadcrumbType.user, some 1210⟩ 1210 (by decide) (by decide) rfl (by decide)

/-- C2: When the session start timestamp is unknown, or no qualifying event
of interest lies at or after the computed target, the next-breadcrumb command
dispatches nothing and the playback state is left unchanged. -/
theorem nextBreadcrumb_noop_when_nothing_to_do :
    ∀ (replay : Option Replay) (currentTime : Int) (st : PlaybackState),
      (replay.bind Replay.startTimestamp = none →
        nextBreadcrumbOnClick replay currentTime = none ∧
        applyDispatch st (nextBreadcrumbOnClick replay currentTime) = st) ∧
      (∀ s, replay.bind Replay.startTimestamp = some s →
        getNextBreadcrumb
            (crumbsOfInterest (transformCrumbs ((replay.map Replay.rawCrumbs).getD [])))
            (s * 1000 + currentTime) = none →
        nextBreadcrumbOnClick replay currentTime = none ∧
        applyDispatch st (nextBreadcrumbOnClick replay currentTime) = st) := by
  intro replay currentTime st
  constructor
  · intro h
    have hnone : nextBreadcrumbOnClick replay currentTime = none := by
      simp [nextBreadcrumbOnClick, h]
    exact ⟨hnone, by rw [hnone]; rfl⟩
  · intro s h hq
    have hnone : nextBreadcrumbOnClick replay currentTime = none := by
      rcases eq_or_ne s 0 with h0 | h0 <;>
        simp [nextBreadcrumbOnClick, h, h0, hq, nextBreadcrumbDispatch]
    exact ⟨hnone, by rw [hnone]; rfl⟩

/-- C2 witness: with no replay at all, the command is a silent no-op. -/
theorem nextBreadcrumb_noop_when_nothing_to_do_witness :
    nextBreadcrumbOnClick none 0 = none ∧
    applyDispatch ⟨0, 1000, false, false, 1, false⟩ (nextBreadcrumbOnClick none 0)
      = ⟨0, 1000, false, false, 1, false⟩ :=
  (nextBreadcrumb_noop_when_nothing_to_do none 0 ⟨0, 1000, false, false, 1, false⟩).1 rfl

/-- C3: The primary playback control dispatches exactly one command per
gesture: `restart` when finished, `togglePlayPause (!isPlaying)` otherwise;
the Clock's own `togglePlayPause` never performs the restart (it leaves the
cursor and the finished flag unchanged), while `restart` resets the cursor to
0, re-enters playing, and clears the finished flag. -/
theorem playPause_maps_gesture_to_one_command :
    ∀ (p r : Bool) (st : PlaybackState),
      (playPauseSlot true p).onClick = some Command.restart ∧
      (playPauseSlot false p).onClick = some (Command.togglePlayPause (!p)) ∧
      (applyCommand st Command.restart).currentTimeMs = 0 ∧
      (applyCommand st Command.restart).isPlaying = true ∧
      (applyCommand st Command.restart).isFinished = false ∧
      (applyCommand st (Command.togglePlayPause r)).currentTimeMs = st.currentTimeMs ∧
      (applyCommand st (Command.togglePlayPause r)).isFinished = st.isFinished := by
  intro p r st
  cases p <;>
    simp [playPauseSlot, applyCommand, PlaybackState.restart,
      PlaybackState.togglePlayPause]

/-- C4: Rewind-10s is not a Clock primitive: it dispatches
`setCurrentTime(currentTime - 10 * SECOND)`, and the Clock's clamp floors the
result at 0; with duration 5000 and cursor 4995 the result is 0, not a
negative time. -/
theorem rewind10_dispatches_setCurrentTime_clamped :
    ∀ (st : PlaybackState), 0 ≤ st.durationMs → st.currentTimeMs ≤ st.durationMs →
      rewind10OnClick st.currentTimeMs
          = Command.setCurrentTime (st.currentTimeMs - 10 * 1000) ∧
      (applyCommand st (rewind10OnClick st.currentTimeMs)).currentTimeMs
          = max (st.currentTimeMs - 10000) 0 ∧
      (applyCommand ⟨4995, 5000, false, false, 1, false⟩
          (rewind10OnClick 4995)).currentTimeMs = 0 := by
  intro st h0 hle
  refine ⟨rfl, ?_, by decide⟩
  simp only [rewind10OnClick, applyCommand, PlaybackState.setCurrentTime, clamp, SECOND]
  split_ifs <;> omega

/-- C4 witness: the theorem at Scenario C's state. -/
theorem rewind10_dispatches_setCurrentTime_clamped_witness :
    rewind10OnClick 4995 = Command.setCurrentTime (4995 - 10 * 1000) ∧
    (applyCommand ⟨4995, 5000, false, false, 1, false⟩
        (rewind10OnClick 4995)).currentTimeMs = max (4995 - 10000) 0 ∧
    (applyCommand ⟨4995, 5000, false, false, 1, false⟩
        (rewind10OnClick 4995)).currentTimeMs = 0 :=
  rewind10_dispatches_setCurrentTime_clamped ⟨4995, 5000, false, false, 1, false⟩
    (by decide) (by decide)

/-- C5: The seek query's filter keeps a crumb exactly when its kind is in the
closed five-element allowlist error / session-init / navigation /
ui-interaction / user-action. -/
theorem crumbsOfInterest_is_closed_allowlist :
    (∀ (crumbs : List Crumb) (c : Crumb),
        c ∈ crumbsOfInterest crumbs ↔
          c ∈ crumbs ∧
            (c.type = BreadcrumbType.error ∨ c.type = BreadcrumbType.init ∨
             c.type = BreadcrumbType.navigation ∨ c.type = BreadcrumbType.ui ∨
             c.type = BreadcrumbType.user)) ∧
    USER_ACTIONS.length = 5 ∧ USER_ACTIONS.Nodup := by
  refine ⟨fun crumbs c => ?_, by decide, by decide⟩
  simp only [crumbsOfInterest, List.mem_filter, mem_USER_ACTIONS_iff]

/-- C6: The compaction level is the pure function of the measured width that
is 1 below 400 and 0 otherwise (so 500, 350, 500 gives 0, 1, 0 with no
residual state); at level 1 the bar drops the rewind-10s and next-breadcrumb
buttons and the speed selector's trigger text is abbreviated, at level 0 all
controls are shown. -/
theorem compaction_rule_pure_and_hides_controls :
    ∀ (w : Int) (st : PlaybackState) (replay : Option Replay),
      updateCompactLevel (some w) = (if w < 400 then 1 else 0) ∧
      ([500, 350, 500].map (fun x => updateCompactLevel (some x)) = [0, 1, 0]) ∧
      replayPlayPauseBar (replayControlsIsCompact (updateCompactLevel (some w))) st replay
        = (if w < 400 then [playPauseSlot st.isFinished st.isPlaying]
           else [rewindButton st.currentTimeMs,
                 playPauseSlot st.isFinished st.isPlaying,
                 nextBreadcrumbButton replay st.currentTimeMs]) ∧
      speedSelectTriggerText (replayControlsIsCompact (updateCompactLevel (some w)))
        = (if w < 400 then "" else "Speed") := by
  intro w st replay
  refine ⟨?_, by decide, ?_, ?_⟩ <;>
    rcases lt_or_le w 400 with h | h <;>
      simp [updateCompactLevel, measuredWidth, replayControlsIsCompact,
        replayPlayPauseBar, speedSelectTriggerText, h, not_lt.mpr h]

/-- C7: The resize handler does recompute the level on every resize, but the
callback passed to `useLayoutEffect` on mount, `() => updateCompactLevel`,
merely returns `updateCompactLevel` as its cleanup without invoking it, so no
`setCompactLevel` call happens before first paint and the level visible at
first paint is the initial 0 — even when the measured width (for example 350)
derives level 1. -/
theorem mount_effect_performs_no_recompute :
    layoutEffectBody.1 = [] ∧
    layoutEffectBody.2 = updateCompactLevelCalls ∧
    compactLevelAtFirstPaint = 0 ∧
    updateCompactLevel (some 350) = 1 ∧
    (∀ (rect : Option Int) (lvl : Nat),
        applySetLevelCalls lvl (resizeObserverOnResize rect) = updateCompactLevel rect) := by
  exact ⟨rfl, rfl, rfl, by decide, fun rect lvl => rfl⟩

/-- C8: The handler guards on truthiness, not mere presence: a session start
equal to 0 is treated like an unknown one (silent no-op), and the final
dispatch is suppressed whenever the found crumb's timestamp is absent or 0. -/
theorem truthiness_guards_silent_noop :
    (∀ (replay : Option Replay) (currentTime : Int),
        replay.bind Replay.startTimestamp = some 0 →
        nextBreadcrumbOnClick replay currentTime = none) ∧
    (∀ (s : Option Int) (next : Option Crumb),
        next.bind Crumb.timestamp = none ∨ next.bind Crumb.timestamp = some 0 →
        nextBreadcrumbDispatch s next = none) := by
  constructor
  · intro replay currentTime h
    simp [nextBreadcrumbOnClick, h]
  · intro s next h
    match s, next with
    | none, _ => rfl
    | some s, none => rfl
    | some s, some n =>
      have hb : (some n).bind Crumb.timestamp = n.timestamp := rfl
      rw [hb] at h
      rcases hn : n.timestamp with _ | ts
      · simp [nextBreadcrumbDispatch, hn]
      · rw [hn] at h
        rcases h with h | h
        · simp at h
        · simp only [Option.some.injEq] at h
          subst h
          simp [nextBreadcrumbDispatch, hn]

/-- C8 witness: session start 0 is a no-op; a found crumb with timestamp 0 is
not dispatched. -/
theorem truthiness_guards_silent_noop_witness :
    nextBreadcrumbOnClick (some ⟨some 0, []⟩) 0 = none ∧
    nextBreadcrumbDispatch (some 5) (some ⟨BreadcrumbType.user, some 0⟩) = none :=
  ⟨truthiness_guards_silent_noop.1 (some ⟨some 0, []⟩) 0 rfl,
   truthiness_guards_silent_noop.2 (some 5) (some ⟨BreadcrumbType.user, some 0⟩)
     (Or.inr rfl)⟩

/-- C9: The speed selector offers one option per speed, in order, disabled
exactly when it equals the current speed; choosing an option dispatches
`setSpeed` with that value and changes nothing but the speed. -/
theorem speed_select_disabled_iff_current :
    ∀ (speedOptions : List ℚ) (speed : ℚ),
      ((speedSelectOptions speedOptions speed).map SelectOption.value = speedOptions) ∧
      (∀ o, o ∈ speedSelectOptions speedOptions speed →
        (o.disabled = true ↔ o.value = speed)) ∧
      (∀ (o : SelectOption) (st : PlaybackState),
        speedSelectOnChange o = Command.setSpeed o.value ∧
        applyCommand st (Command.setSpeed o.value) = { st with speed := o.value }) := by
  intro speedOptions speed
  refine ⟨?_, ?_, fun o st => ⟨rfl, rfl⟩⟩
  · simp [speedSelectOptions, List.map_map, Function.comp_def]
  · intro o ho
    simp only [speedSelectOptions, List.mem_map] at ho
    obtain ⟨a, _, rfl⟩ := ho
    simp

/-- C9 witness: the disabled-iff-current part at a concrete option list. -/
theorem speed_select_disabled_iff_current_witness :
    (⟨1, true⟩ : SelectOption).disabled = true ↔ (⟨1, true⟩ : SelectOption).value = 1 :=
  (speed_select_disabled_iff_current [1, 2] 1).2.1 ⟨1, true⟩ (by decide)

/-- C10: When the container cannot be measured, the width defaults to 500,
hence the compaction level is 0 and all controls are shown. -/
theorem missing_rect_defaults_width_500 :
    measuredWidth none = 500 ∧
    updateCompactLevel none = 0 ∧
    replayControlsIsCompact (updateCompactLevel none) = false ∧
    (∀ (st : PlaybackState) (replay : Option Replay),
      replayPlayPauseBar (replayControlsIsCompact (updateCompactLevel none)) st replay
        = [rewindButton st.currentTimeMs,
           playPauseSlot st.isFinished st.isPlaying,
           nextBreadcrumbButton replay st.currentTimeMs]) :=
  ⟨rfl, rfl, rfl, fun _ _ => rfl⟩
